import Mathlib

/-!
Verification development for `espnet2/tasks/svs.py` (SVSTask): a shallow
embedding of the task's factory methods — `build_model`,
`build_vocoder_from_file`, `build_collate_fn`, `build_preprocess_fn` — and
proofs of the specified properties.

Conventions of the embedding:
* Python dictionaries whose values matter only as integers (the various
  `*_conf` keyword mappings; the only inspected keys hold integers such as
  `reduction_factor`, `n_fft`, `n_shift`, `fs`, `hop_length`) are modelled
  as association lists `Conf` with Python-dict `get` / `get`-with-default /
  item-assignment semantics.
* Python exceptions raised by the factory (RuntimeError, AssertionError,
  file errors, unknown-choice errors, TypeError from `**None`) are modelled
  as the `Except`-error branch with a `BuildError` tag.
* Constructed components are modelled as records of the constructor
  arguments the factory passes (class label plus keyword configuration);
  the neural internals are external collaborators and out of scope.
* The filesystem is an explicit parameter `FileSys` mapping a path to the
  list of lines Python's file iteration would yield (each line including
  its trailing newline, as Python yields it); `output_size` of the
  constructed feature extractor is an explicit function parameter.
-/

/-- A Python dict with string keys and integer values, as an association
list (keys unique in practice; `get` takes the first match, `set` replaces
the first match in place or appends). -/
abbrev Conf := List (String × Nat)

/-- Python `d.get(k, None)`. -/
def Conf.get : Conf → String → Option Nat
  | [], _ => none
  | (k0, v0) :: rest, k => if k0 = k then some v0 else Conf.get rest k

/-- Python `d.get(k, dflt)`. -/
def Conf.getD (c : Conf) (k : String) (dflt : Nat) : Nat :=
  (Conf.get c k).getD dflt

/-- Python `d[k] = v`. -/
def Conf.set : Conf → String → Nat → Conf
  | [], k, v => [(k, v)]
  | (k0, v0) :: rest, k, v =>
    if k0 = k then (k0, v) :: rest else (k0, v0) :: Conf.set rest k v

/-- Python `d.update(other)`: assign every key of `other` into `d`. -/
def Conf.update (c other : Conf) : Conf :=
  other.foldl (fun acc kv => Conf.set acc kv.1 kv.2) c

/-- Python whitespace characters stripped by `str.rstrip()`:
space, tab, newline, carriage return, vertical tab, form feed. -/
def isPyWhitespace (c : Char) : Bool :=
  c = ' ' || c = '\t' || c = '\n' || c = '\r' ||
    c = Char.ofNat 11 || c = Char.ofNat 12

/-- Python `line.rstrip()`: remove all trailing whitespace characters. -/
def pyRstrip (s : String) : String :=
  ⟨(s.data.reverse.dropWhile isPyWhitespace).reverse⟩

/-- Python `s.endswith(post)`. -/
def pyEndsWith (s post : String) : Bool :=
  post.data.isSuffixOf s.data

/-- The value of `args.token_list`: a path string, an already-materialized
sequence (Python list or tuple of tokens), or a value of any other type
(the `else` branch of the `isinstance` checks). -/
inductive TokenListArg
  | path (p : String)
  | toks (ts : List String)
  | invalid
deriving DecidableEq

/-- Errors raised by the factory methods (Python exceptions). -/
inductive BuildError
  /-- `RuntimeError("token_list must be str or dict")`. -/
  | tokenListType
  /-- `open` on a missing token-list file / missing YAML file. -/
  | fileNotFound (p : String)
  /-- `ClassChoices.get_class` on an unknown label. -/
  | unknownChoice (slot : String) (label : String)
  /-- a required (non-optional) registry slot resolved to no class. -/
  | missingChoice (slot : String)
  /-- `cls(**conf)` where the stored conf is `None` (TypeError). -/
  | badConf (slot : String)
  /-- the reduction-factor `assert` failed (AssertionError). -/
  | assertionError
  /-- `ValueError(f"{vocoder_file} is not supported format.")`. -/
  | unsupportedFormat (f : String)
deriving DecidableEq

/-- Registry labels of `feats_extractor_choices`. -/
def feats_extractor_labels : List String :=
  ["fbank", "spectrogram", "linear_spectrogram"]

/-- Registry labels of `score_feats_extractor_choices`. -/
def score_feats_extractor_labels : List String :=
  ["frame_score_feats", "syllable_score_feats"]

/-- Registry labels of `pitch_extractor_choices`. -/
def pitch_extractor_labels : List String := ["dio"]

/-- Registry labels of `energy_extractor_choices`. -/
def energy_extractor_labels : List String := ["energy"]

/-- Registry labels of `normalize_choices`. -/
def normalize_labels : List String := ["global_mvn"]

/-- Registry labels of `pitch_normalize_choices`. -/
def pitch_normalize_labels : List String := ["global_mvn"]

/-- Registry labels of `ying_extractor_choices`. -/
def ying_extractor_labels : List String := ["ying"]

/-- Registry labels of `energy_normalize_choices`. -/
def energy_normalize_labels : List String := ["global_mvn"]

/-- Registry labels of `svs_choices` (commented-out classes excluded). -/
def svs_labels : List String :=
  ["naive_rnn", "naive_rnn_dp", "xiaoice", "toksing", "vits",
   "joint_score2wav", "singing_tacotron"]

/-- Registry labels of `model_type_choices`. -/
def model_type_labels : List String := ["svs", "discrete_svs"]

/-- Embedding of `ClassChoices.get_class` on a present label: unknown labels are fatal
("no such choice" per the registry contract). -/
def lookupChoice (labels : List String) (slot : String) (label : String) :
    Except BuildError String :=
  if label ∈ labels then .ok label else .error (.unknownChoice slot label)

/-- The parsed configuration namespace (`args`), restricted to the fields
`SVSTask` reads.  Optional registry slots and optional attributes are
`Option`; `getattr(args, f, None)` on an absent attribute coincides with
the field being `none`. -/
structure Args where
  token_list : TokenListArg
  odim : Option Nat
  /-- `getattr(args, "model_type", "svs")`: `none` models the attribute
  being absent from the namespace. -/
  model_type : Option String
  nclusters : Nat
  discrete_token_layers : Nat
  feats_extract : Option String
  feats_extract_conf : Option Conf
  normalize : Option String
  normalize_conf : Conf
  svs : String
  svs_conf : Conf
  score_feats_extract : Option String
  score_feats_extract_conf : Conf
  pitch_extract : Option String
  pitch_extract_conf : Conf
  ying_extract : Option String
  ying_extract_conf : Conf
  energy_extract : Option String
  energy_extract_conf : Conf
  pitch_normalize : Option String
  pitch_normalize_conf : Conf
  energy_normalize : Option String
  energy_normalize_conf : Conf
  model_conf : Conf
  use_preprocessor : Bool
  token_type : String
  bpemodel : Option String
  non_linguistic_symbols : Option String
  cleaner : Option String
  g2p : Option String
  fs : Nat
deriving DecidableEq

/-- A constructed auxiliary component: the registry class selected and the
keyword configuration it was constructed with. -/
structure Extractor where
  cls : String
  conf : Conf
deriving DecidableEq

/-- A constructed normalization component. -/
structure Normalizer where
  cls : String
  conf : Conf
deriving DecidableEq

/-- The constructed core synthesis component: `svs_class(idim=...,
odim=..., [discrete_token_layers=...,] **args.svs_conf)`. -/
structure SVSComp where
  cls : String
  idim : Nat
  odim : Nat
  discrete_token_layers : Option Nat
  conf : Conf
deriving DecidableEq

/-- The assembled model: the wrapper class selected by `model_type` and
every keyword argument `build_model` passes to it. -/
structure Model where
  cls : String
  svs : SVSComp
  /-- present only on the `discrete_svs` path (`kwargs` update). -/
  discrete_token_layers : Option Nat
  text_extract : Option Extractor
  feats_extract : Option Extractor
  score_feats_extract : Option Extractor
  label_extract : Option Extractor
  duration_extract : Option Extractor
  pitch_extract : Option Extractor
  energy_extract : Option Extractor
  ying_extract : Option Extractor
  normalize : Option Normalizer
  pitch_normalize : Option Normalizer
  energy_normalize : Option Normalizer
  model_conf : Conf
deriving DecidableEq

/-- The filesystem: a path maps to the lines Python's file iteration
yields (each including its trailing newline), or `none` if opening fails. -/
abbrev FileSys := String → Option (List String)

/-- The `output_size()` method of the constructed feature extractor, an
external collaborator: class label and constructor conf determine it. -/
abbrev OutputSizeFn := String → Conf → Nat

/-- Token-vocabulary resolution at the top of `build_model`: a string path
is read line by line with `line.rstrip()` and `args.token_list` is
overwritten with the materialized list; a list/tuple is copied; anything
else raises `RuntimeError`. -/
def resolveTokenList (fsys : FileSys) (args : Args) :
    Except BuildError (Args × List String) :=
  match args.token_list with
  | .path p =>
    match fsys p with
    | none => .error (.fileNotFound p)
    | some lines =>
      let token_list := lines.map pyRstrip
      .ok ({ args with token_list := .toks token_list }, token_list)
  | .toks ts => .ok (args, ts)
  | .invalid => .error .tokenListType

/-- Step 1 of `build_model`: resolve `odim`.  With `args.odim is None` the
selected feature extractor is constructed and queried for its output size;
otherwise `args.feats_extract` and `args.feats_extract_conf` are reset to
`None` and no extractor is built. -/
def resolveFeats (output_size : OutputSizeFn) (args : Args) :
    Except BuildError (Args × Option Extractor × Nat) :=
  match args.odim with
  | none =>
    match args.feats_extract with
    | none => .error (.missingChoice "feats_extract")
    | some label =>
      match lookupChoice feats_extractor_labels "feats_extract" label with
      | .error e => .error e
      | .ok cls =>
        match args.feats_extract_conf with
        | none => .error (.badConf "feats_extract")
        | some conf => .ok (args, some ⟨cls, conf⟩, output_size cls conf)
  | some d =>
    .ok ({ args with feats_extract := none, feats_extract_conf := none },
      none, d)

/-- Step 2 of `build_model`: the optional normalization layer. -/
def buildNormalize (args : Args) : Except BuildError (Option Normalizer) :=
  match args.normalize with
  | none => .ok none
  | some label =>
    match lookupChoice normalize_labels "normalize" label with
    | .error e => .error e
    | .ok cls => .ok (some ⟨cls, args.normalize_conf⟩)

/-- Step 4 of `build_model`, score features: the optional score-features
extractor, constructed once. -/
def buildScoreFeats (args : Args) : Except BuildError (Option Extractor) :=
  match args.score_feats_extract with
  | none => .ok none
  | some label =>
    match lookupChoice score_feats_extractor_labels "score_feats_extract"
        label with
    | .error e => .error e
    | .ok cls => .ok (some ⟨cls, args.score_feats_extract_conf⟩)

/-- Step 4 of `build_model`, pitch: `get_class` first, then the
reduction-factor check — a configured `reduction_factor` must equal
`args.svs_conf.get("reduction_factor", 1)` (AssertionError otherwise), and
an absent one is assigned into `args.pitch_extract_conf` — then
construction from the (possibly mutated) conf. -/
def buildPitch (args : Args) : Except BuildError (Args × Option Extractor) :=
  match args.pitch_extract with
  | none => .ok (args, none)
  | some label =>
    match lookupChoice pitch_extractor_labels "pitch_extract" label with
    | .error e => .error e
    | .ok cls =>
      match Conf.get args.pitch_extract_conf "reduction_factor" with
      | some r1 =>
        if r1 = Conf.getD args.svs_conf "reduction_factor" 1 then
          .ok (args, some ⟨cls, args.pitch_extract_conf⟩)
        else .error .assertionError
      | none =>
        let conf := Conf.set args.pitch_extract_conf "reduction_factor"
          (Conf.getD args.svs_conf "reduction_factor" 1)
        .ok ({ args with pitch_extract_conf := conf }, some ⟨cls, conf⟩)

/-- Step 4 of `build_model`, ying: the optional ying extractor. -/
def buildYing (args : Args) : Except BuildError (Option Extractor) :=
  match args.ying_extract with
  | none => .ok none
  | some label =>
    match lookupChoice ying_extractor_labels "ying_extract" label with
    | .error e => .error e
    | .ok cls => .ok (some ⟨cls, args.ying_extract_conf⟩)

/-- Step 4 of `build_model`, energy: in the source the reduction-factor
check and conf mutation come before `get_class`; otherwise as pitch. -/
def buildEnergy (args : Args) : Except BuildError (Args × Option Extractor) :=
  match args.energy_extract with
  | none => .ok (args, none)
  | some label =>
    match Conf.get args.energy_extract_conf "reduction_factor" with
    | some r1 =>
      if r1 = Conf.getD args.svs_conf "reduction_factor" 1 then
        match lookupChoice energy_extractor_labels "energy_extract" label with
        | .error e => .error e
        | .ok cls => .ok (args, some ⟨cls, args.energy_extract_conf⟩)
      else .error .assertionError
    | none =>
      let conf := Conf.set args.energy_extract_conf "reduction_factor"
        (Conf.getD args.svs_conf "reduction_factor" 1)
      match lookupChoice energy_extractor_labels "energy_extract" label with
      | .error e => .error e
      | .ok cls =>
        .ok ({ args with energy_extract_conf := conf }, some ⟨cls, conf⟩)

/-- Step 4 of `build_model`, pitch normalization. -/
def buildPitchNormalize (args : Args) :
    Except BuildError (Option Normalizer) :=
  match args.pitch_normalize with
  | none => .ok none
  | some label =>
    match lookupChoice pitch_normalize_labels "pitch_normalize" label with
    | .error e => .error e
    | .ok cls => .ok (some ⟨cls, args.pitch_normalize_conf⟩)

/-- Step 4 of `build_model`, energy normalization. -/
def buildEnergyNormalize (args : Args) :
    Except BuildError (Option Normalizer) :=
  match args.energy_normalize with
  | none => .ok none
  | some label =>
    match lookupChoice energy_normalize_labels "energy_normalize" label with
    | .error e => .error e
    | .ok cls => .ok (some ⟨cls, args.energy_normalize_conf⟩)

/-- Embedding of `SVSTask.build_model(args)`: the full factory, in source order.
Returns the mutated `args` (the source mutates the namespace in place)
together with the assembled model. -/
def build_model (fsys : FileSys) (output_size : OutputSizeFn)
    (args : Args) : Except BuildError (Args × Model) :=
  match resolveTokenList fsys args with
  | .error e => .error e
  | .ok (args1, token_list) =>
    let vocab_size := token_list.length
    let raw_model_type := args1.model_type.getD "svs"
    match resolveFeats output_size args1 with
    | .error e => .error e
    | .ok (args2, feats_extract, odim0) =>
      let odim :=
        if raw_model_type = "discrete_svs" then args2.nclusters else odim0
      let discrete_token_layers :=
        if raw_model_type = "discrete_svs" then
          some args2.discrete_token_layers
        else none
      match buildNormalize args2 with
      | .error e => .error e
      | .ok normalize =>
        match lookupChoice svs_labels "svs" args2.svs with
        | .error e => .error e
        | .ok svs_cls =>
          let svs : SVSComp :=
            ⟨svs_cls, vocab_size, odim, discrete_token_layers,
              args2.svs_conf⟩
          match buildScoreFeats args2 with
          | .error e => .error e
          | .ok score_feats_extract =>
            match buildPitch args2 with
            | .error e => .error e
            | .ok (args3, pitch_extract) =>
              match buildYing args3 with
              | .error e => .error e
              | .ok ying_extract =>
                match buildEnergy args3 with
                | .error e => .error e
                | .ok (args4, energy_extract) =>
                  match buildPitchNormalize args4 with
                  | .error e => .error e
                  | .ok pitch_normalize =>
                    match buildEnergyNormalize args4 with
                    | .error e => .error e
                    | .ok energy_normalize =>
                      match lookupChoice model_type_labels "model_type"
                          raw_model_type with
                      | .error e => .error e
                      | .ok model_cls =>
                        .ok (args4,
                          { cls := model_cls
                            svs := svs
                            discrete_token_layers := discrete_token_layers
                            text_extract := score_feats_extract
                            feats_extract := feats_extract
                            score_feats_extract := score_feats_extract
                            label_extract := score_feats_extract
                            duration_extract := score_feats_extract
                            pitch_extract := pitch_extract
                            energy_extract := energy_extract
                            ying_extract := ying_extract
                            normalize := normalize
                            pitch_normalize := pitch_normalize
                            energy_normalize := energy_normalize
                            model_conf := args4.model_conf })

/-- The constructed vocoder: either the griffin-lim
`Spectrogram2Waveform(**vocoder_conf)` or the pretrained
`ParallelWaveGANPretrainedVocoder(vocoder_file, vocoder_config_file)`
moved to `device`. -/
inductive Vocoder
  | spectrogram2Waveform (conf : Conf)
  | parallelWaveGAN (file : String) (configFile : Option String)
      (device : String)
deriving DecidableEq

/-- The YAML side of the filesystem: a path maps to the parameter mapping
`yaml.safe_load` yields, or `none` if opening fails. -/
abbrev YamlFS := String → Option Conf

/-- The parameter mapping assembled on the `vocoder_file is None` path:
`{}` or the YAML mapping read from `vocoder_config_file`, updated with
`model.feats_extract.get_parameters()` when the model holds a feature
extractor (`feats_extract_params` models that: `none` when
`model.feats_extract is None`, otherwise `some` of its parameters). -/
def mergedVocoderConf (yfs : YamlFS) (vocoder_config_file : Option String)
    (feats_extract_params : Option Conf) : Except BuildError Conf :=
  match vocoder_config_file with
  | none =>
    match feats_extract_params with
    | some params => .ok (Conf.update [] params)
    | none => .ok []
  | some p =>
    match yfs p with
    | none => .error (.fileNotFound p)
    | some c =>
      match feats_extract_params with
      | some params => .ok (Conf.update c params)
      | none => .ok c

/-- Embedding of `SVSTask.build_vocoder_from_file`. -/
def build_vocoder_from_file (yfs : YamlFS)
    (vocoder_config_file : Option String) (vocoder_file : Option String)
    (feats_extract_params : Option Conf) (device : String) :
    Except BuildError (Option Vocoder) :=
  match vocoder_file with
  | none =>
    match mergedVocoderConf yfs vocoder_config_file feats_extract_params with
    | .error e => .error e
    | .ok vocoder_conf =>
      if (Conf.get vocoder_conf "n_fft").isSome ∧
          (Conf.get vocoder_conf "n_shift").isSome ∧
          (Conf.get vocoder_conf "fs").isSome then
        .ok (some (.spectrogram2Waveform vocoder_conf))
      else
        -- logging.warning("Vocoder is not available. Skipped its building.")
        .ok none
  | some vf =>
    if pyEndsWith vf ".pkl" then
      .ok (some (.parallelWaveGAN vf vocoder_config_file device))
    else
      .error (.unsupportedFormat vf)

/-- The constructed `SVSPreprocessor`, as the record of the constructor
arguments `build_preprocess_fn` passes (the preprocessor class itself is an
external collaborator). -/
structure SVSPreprocessor where
  train : Bool
  token_type : String
  token_list : TokenListArg
  bpemodel : Option String
  non_linguistic_symbols : Option String
  text_cleaner : Option String
  g2p_type : Option String
  fs : Nat
  hop_length : Nat
deriving DecidableEq

/-- Embedding of `SVSTask.build_preprocess_fn(args, train)`: when
`args.use_preprocessor` it constructs the preprocessor, unconditionally
evaluating `args.feats_extract_conf["hop_length"]` — a `None` conf
(TypeError) or a conf without the key (KeyError) raises; otherwise it
returns `None`. -/
def build_preprocess_fn (args : Args) (train : Bool) :
    Except BuildError (Option SVSPreprocessor) :=
  if args.use_preprocessor then
    match args.feats_extract_conf with
    | none => .error (.badConf "feats_extract_conf")
    | some conf =>
      match Conf.get conf "hop_length" with
      | none => .error (.badConf "hop_length")
      | some hop =>
        .ok (some
          { train := train
            token_type := args.token_type
            token_list := args.token_list
            bpemodel := args.bpemodel
            non_linguistic_symbols := args.non_linguistic_symbols
            text_cleaner := args.cleaner
            g2p_type := args.g2p
            fs := args.fs
            hop_length := hop })
  else .ok none

/-- A scalar cell of a batched array, tagged with the Python dtype kind it
came from (the integer payload stands for the numeric value; padding never
inspects it). -/
inductive Scalar
  | int (v : Int)
  | float (v : Int)
deriving DecidableEq

/-- Modelled from the spec: `CommonCollateFn` (espnet2/train/collate_fn.py
is not under src/; §4.4 describes it) — "a fixed collation strategy that
pads variable-length per-example tensors to a common shape within a batch,
except for designated non-sequential fields…, using distinct fill values
for floating-point versus integer fields".  The record holds the
construction parameters `build_collate_fn` passes. -/
structure CommonCollateFn where
  float_pad_value : Scalar
  int_pad_value : Scalar
  not_sequence : List String
deriving DecidableEq

/-- Modelled from the spec: pad one per-example array (a float array iff
`isFloat`) up to `target` cells with the fill value of its dtype kind. -/
def CommonCollateFn.padEntry (fn : CommonCollateFn) (isFloat : Bool)
    (xs : List Scalar) (target : Nat) : List Scalar :=
  xs ++ List.replicate (target - xs.length)
    (if isFloat then fn.float_pad_value else fn.int_pad_value)

/-- Modelled from the spec: collate one named field across a batch.  Each
example contributes `(isFloat, cells)`.  A designated non-sequential field
is passed through unpadded; any other field is padded to the maximum
length in the batch. -/
def CommonCollateFn.collateField (fn : CommonCollateFn) (name : String)
    (batch : List (Bool × List Scalar)) : List (List Scalar) :=
  if name ∈ fn.not_sequence then batch.map (·.2)
  else
    let m := (batch.map (·.2.length)).foldr max 0
    batch.map fun d => fn.padEntry d.1 d.2 m

/-- Embedding of `SVSTask.build_collate_fn(args, train)`: ignores both arguments and
returns `CommonCollateFn(float_pad_value=0.0, int_pad_value=0,
not_sequence=["spembs", "sids", "lids"])`. -/
def build_collate_fn (_args : Args) (_train : Bool) : CommonCollateFn :=
  { float_pad_value := .float 0
    int_pad_value := .int 0
    not_sequence := ["spembs", "sids", "lids"] }

/-- Claim C8's reading of the token-list file, following the spec's words
("read with trailing-newline stripped per line", all other characters of
the line preserved): strip exactly the trailing newline. -/
def stripTrailingNewlineOnly (s : String) : String :=
  ⟨(s.data.reverse.dropWhile (· = '\n')).reverse⟩


/-! ### Inversion and frame lemmas for the factory steps -/

theorem Conf.get_set_self (c : Conf) (k : String) (v : Nat) :
    Conf.get (Conf.set c k v) k = some v := by
  induction c with
  | nil => simp [Conf.set, Conf.get]
  | cons kv rest ih =>
    by_cases h : kv.1 = k
    · simp [Conf.set, Conf.get, h]
    · simp [Conf.set, Conf.get, h, ih]

theorem lookupChoice_ok {L : List String} {s lab c : String}
    (h : lookupChoice L s lab = .ok c) : c = lab := by
  unfold lookupChoice at h
  split at h
  · injection h with h'
    exact h'.symm
  · exact absurd h (by simp)

theorem resolveTokenList_ok {fsys : FileSys} {a a' : Args}
    {tl : List String} (h : resolveTokenList fsys a = .ok (a', tl)) :
    a' = { a with token_list := .toks tl } ∧
      (a.token_list = .toks tl ∨
        ∃ p lines, a.token_list = .path p ∧ fsys p = some lines ∧
          tl = lines.map pyRstrip) := by
  unfold resolveTokenList at h
  split at h
  next p hma =>
    split at h
    next => exact absurd h (by simp)
    next lines hfs =>
      simp only [Except.ok.injEq, Prod.mk.injEq] at h
      obtain ⟨h1, h2⟩ := h
      subst h2
      exact ⟨h1.symm, Or.inr ⟨p, lines, hma, hfs, rfl⟩⟩
  next ts hma =>
    simp only [Except.ok.injEq, Prod.mk.injEq] at h
    obtain ⟨h1, h2⟩ := h
    subst h1; subst h2
    refine ⟨?_, Or.inl hma⟩
    cases a
    simp_all
  next => exact absurd h (by simp)

theorem resolveFeats_ok {osz : OutputSizeFn} {a a' : Args}
    {fe : Option Extractor} {d : Nat}
    (h : resolveFeats osz a = .ok (a', fe, d)) :
    (a.odim = none ∧ a' = a) ∨
      (a.odim = some d ∧ fe = none ∧
        a' = { a with feats_extract := none, feats_extract_conf := none }) := by
  unfold resolveFeats at h
  split at h
  next hod =>
    split at h
    next => exact absurd h (by simp)
    next label hfe =>
      split at h
      next => exact absurd h (by simp)
      next cls hcls =>
        split at h
        next => exact absurd h (by simp)
        next conf hconf =>
          simp only [Except.ok.injEq, Prod.mk.injEq] at h
          exact Or.inl ⟨hod, h.1.symm⟩
  next d0 hod =>
    simp only [Except.ok.injEq, Prod.mk.injEq] at h
    obtain ⟨h1, h2, h3⟩ := h
    subst h3
    exact Or.inr ⟨hod, h2.symm, h1.symm⟩

theorem buildPitch_frame {a a' : Args} {pe : Option Extractor}
    (h : buildPitch a = .ok (a', pe)) :
    a' = a ∨ ∃ v, a' = { a with pitch_extract_conf := Conf.set a.pitch_extract_conf "reduction_factor" v } := by
  unfold buildPitch at h
  split at h
  next =>
    simp only [Except.ok.injEq, Prod.mk.injEq] at h
    exact Or.inl h.1.symm
  next label hl =>
    split at h
    next => exact absurd h (by simp)
    next cls hcls =>
      split at h
      next r1 hr1 =>
        split at h
        next =>
          simp only [Except.ok.injEq, Prod.mk.injEq] at h
          exact Or.inl h.1.symm
        next => exact absurd h (by simp)
      next hr1 =>
        simp only [Except.ok.injEq, Prod.mk.injEq] at h
        exact Or.inr ⟨_, h.1.symm⟩

theorem buildPitch_none {a : Args} (hn : a.pitch_extract = none) :
    buildPitch a = .ok (a, none) := by
  unfold buildPitch
  rw [hn]

theorem buildPitch_mismatch {a : Args} {r : Args × Option Extractor}
    (h : buildPitch a = .ok r) {l : String} {r1 : Nat}
    (hl : a.pitch_extract = some l)
    (hr : Conf.get a.pitch_extract_conf "reduction_factor" = some r1)
    (hne : r1 ≠ Conf.getD a.svs_conf "reduction_factor" 1) :
    False := by
  unfold buildPitch at h
  split at h
  next heq => exact absurd heq (by simp [hl])
  next label heq =>
    split at h
    next => exact absurd h (by simp)
    next cls hcls =>
      split at h
      next r1' hr' =>
        rw [hr] at hr'
        injection hr' with hr''
        subst hr''
        split at h
        next hc => exact hne hc
        next => exact absurd h (by simp)
      next hr' => exact absurd hr' (by simp [hr])

theorem buildPitch_inherit {a a' : Args} {pe : Option Extractor}
    (h : buildPitch a = .ok (a', pe)) {l : String}
    (hl : a.pitch_extract = some l)
    (hr : Conf.get a.pitch_extract_conf "reduction_factor" = none) :
    pe = some ⟨l, Conf.set a.pitch_extract_conf "reduction_factor" (Conf.getD a.svs_conf "reduction_factor" 1)⟩ := by
  unfold buildPitch at h
  split at h
  next heq => exact absurd heq (by simp [hl])
  next label heq =>
    rw [hl] at heq
    injection heq with hlab
    subst hlab
    split at h
    next => exact absurd h (by simp)
    next cls hcls =>
      obtain rfl := lookupChoice_ok hcls
      split at h
      next r1' hr' => exact absurd hr' (by simp [hr])
      next hr' =>
        simp only [Except.ok.injEq, Prod.mk.injEq] at h
        exact h.2.symm

theorem buildEnergy_frame {a a' : Args} {ee : Option Extractor}
    (h : buildEnergy a = .ok (a', ee)) :
    a' = a ∨ ∃ v, a' = { a with energy_extract_conf := Conf.set a.energy_extract_conf "reduction_factor" v } := by
  unfold buildEnergy at h
  split at h
  next =>
    simp only [Except.ok.injEq, Prod.mk.injEq] at h
    exact Or.inl h.1.symm
  next label hl =>
    split at h
    next r1 hr1 =>
      split at h
      next =>
        split at h
        next => exact absurd h (by simp)
        next cls hcls =>
          simp only [Except.ok.injEq, Prod.mk.injEq] at h
          exact Or.inl h.1.symm
      next => exact absurd h (by simp)
    next hr1 =>
      split at h
      next => exact absurd h (by simp)
      next cls hcls =>
        simp only [Except.ok.injEq, Prod.mk.injEq] at h
        exact Or.inr ⟨_, h.1.symm⟩

theorem buildEnergy_none {a : Args} (hn : a.energy_extract = none) :
    buildEnergy a = .ok (a, none) := by
  unfold buildEnergy
  rw [hn]

theorem buildEnergy_mismatch {a : Args} {r : Args × Option Extractor}
    (h : buildEnergy a = .ok r) {l : String} {r1 : Nat}
    (hl : a.energy_extract = some l)
    (hr : Conf.get a.energy_extract_conf "reduction_factor" = some r1)
    (hne : r1 ≠ Conf.getD a.svs_conf "reduction_factor" 1) :
    False := by
  unfold buildEnergy at h
  split at h
  next heq => exact absurd heq (by simp [hl])
  next label heq =>
    split at h
    next r1' hr' =>
      rw [hr] at hr'
      injection hr' with hr''
      subst hr''
      split at h
      next hc => exact hne hc
      next => exact absurd h (by simp)
    next hr' => exact absurd hr' (by simp [hr])

theorem buildEnergy_inherit {a a' : Args} {ee : Option Extractor}
    (h : buildEnergy a = .ok (a', ee)) {l : String}
    (hl : a.energy_extract = some l)
    (hr : Conf.get a.energy_extract_conf "reduction_factor" = none) :
    ee = some ⟨l, Conf.set a.energy_extract_conf "reduction_factor" (Conf.getD a.svs_conf "reduction_factor" 1)⟩ := by
  unfold buildEnergy at h
  split at h
  next heq => exact absurd heq (by simp [hl])
  next label heq =>
    rw [hl] at heq
    injection heq with hlab
    subst hlab
    split at h
    next r1' hr' => exact absurd hr' (by simp [hr])
    next hr' =>
      split at h
      next => exact absurd h (by simp)
      next cls hcls =>
        obtain rfl := lookupChoice_ok hcls
        simp only [Except.ok.injEq, Prod.mk.injEq] at h
        exact h.2.symm

theorem buildScoreFeats_none {a : Args} (hn : a.score_feats_extract = none) :
    buildScoreFeats a = .ok none := by
  unfold buildScoreFeats
  rw [hn]

/-- Full success inversion of `build_model`: every intermediate step
succeeded in order, and the returned namespace and model are exactly the
values the factory assembles. -/
theorem build_model_ok_inv {fsys : FileSys} {osz : OutputSizeFn}
    {a a' : Args} {m : Model}
    (h : build_model fsys osz a = .ok (a', m)) :
    ∃ (a1 : Args) (tl : List String) (a2 : Args) (fe : Option Extractor)
      (d0 : Nat) (nz : Option Normalizer) (scls : String)
      (sc : Option Extractor) (a3 : Args) (pe : Option Extractor)
      (ye : Option Extractor) (a4 : Args) (ee : Option Extractor)
      (pn : Option Normalizer) (en : Option Normalizer) (mc : String),
      resolveTokenList fsys a = .ok (a1, tl) ∧
      resolveFeats osz a1 = .ok (a2, fe, d0) ∧
      buildNormalize a2 = .ok nz ∧
      lookupChoice svs_labels "svs" a2.svs = .ok scls ∧
      buildScoreFeats a2 = .ok sc ∧
      buildPitch a2 = .ok (a3, pe) ∧
      buildYing a3 = .ok ye ∧
      buildEnergy a3 = .ok (a4, ee) ∧
      buildPitchNormalize a4 = .ok pn ∧
      buildEnergyNormalize a4 = .ok en ∧
      lookupChoice model_type_labels "model_type"
        (a1.model_type.getD "svs") = .ok mc ∧
      a' = a4 ∧
      m = { cls := mc
            svs := ⟨scls, tl.length,
              (if a1.model_type.getD "svs" = "discrete_svs" then a2.nclusters else d0),
              (if a1.model_type.getD "svs" = "discrete_svs" then some a2.discrete_token_layers else none),
              a2.svs_conf⟩
            discrete_token_layers :=
              (if a1.model_type.getD "svs" = "discrete_svs" then some a2.discrete_token_layers else none)
            text_extract := sc
            feats_extract := fe
            score_feats_extract := sc
            label_extract := sc
            duration_extract := sc
            pitch_extract := pe
            energy_extract := ee
            ying_extract := ye
            normalize := nz
            pitch_normalize := pn
            energy_normalize := en
            model_conf := a4.model_conf } := by
  simp only [build_model] at h
  split at h
  next => exact absurd h (by simp)
  next a1 tl h1 =>
    split at h
    next => exact absurd h (by simp)
    next a2 fe d0 h2 =>
      split at h
      next => exact absurd h (by simp)
      next nz h3 =>
        split at h
        next => exact absurd h (by simp)
        next scls h4 =>
          split at h
          next => exact absurd h (by simp)
          next sc h5 =>
            split at h
            next => exact absurd h (by simp)
            next a3 pe h6 =>
              split at h
              next => exact absurd h (by simp)
              next ye h7 =>
                split at h
                next => exact absurd h (by simp)
                next a4 ee h8 =>
                  split at h
                  next => exact absurd h (by simp)
                  next pn h9 =>
                    split at h
                    next => exact absurd h (by simp)
                    next en h10 =>
                      split at h
                      next => exact absurd h (by simp)
                      next mc h11 =>
                        simp only [Except.ok.injEq, Prod.mk.injEq] at h
                        obtain ⟨ha, hm⟩ := h
                        subst ha
                        exact ⟨a1, tl, a2, fe, d0, nz, scls, sc, a3, pe,
                          ye, a4, ee, pn, en, mc, h1, h2, h3, h4, h5, h6,
                          h7, h8, h9, h10, h11, rfl, hm.symm⟩

/-- Composite frame property of `build_model` on the namespace: a
successful call can change only `token_list` (materialized), the
`feats_extract`/`feats_extract_conf` pair (reset on the explicit-`odim`
path) and the `pitch_extract_conf`/`energy_extract_conf` dicts
(reduction-factor inheritance); every other field survives unchanged. -/
theorem build_model_args_frame {fsys : FileSys} {osz : OutputSizeFn}
    {a a' : Args} {m : Model}
    (h : build_model fsys osz a = .ok (a', m)) :
    a' = { a with token_list := a'.token_list, feats_extract := a'.feats_extract, feats_extract_conf := a'.feats_extract_conf, pitch_extract_conf := a'.pitch_extract_conf, energy_extract_conf := a'.energy_extract_conf } := by
  obtain ⟨a1, tl, a2, fe, d0, nz, scls, sc, a3, pe, ye, a4, ee, pn, en, mc,
    h1, h2, h3, h4, h5, h6, h7, h8, h9, h10, h11, ha, hm⟩ :=
    build_model_ok_inv h
  obtain ⟨rfl, -⟩ := resolveTokenList_ok h1
  rcases resolveFeats_ok h2 with ⟨-, rfl⟩ | ⟨-, -, rfl⟩ <;>
    rcases buildPitch_frame h6 with rfl | ⟨v, rfl⟩ <;>
      rcases buildEnergy_frame h8 with rfl | ⟨w, rfl⟩ <;>
        subst ha <;> rfl

/-! ### Concrete inputs used by the witnesses -/

/-- A baseline well-formed configuration for concrete runs. -/
def baseArgs : Args where
  token_list := .toks ["a", "b", "c"]
  odim := none
  model_type := some "svs"
  nclusters := 1024
  discrete_token_layers := 1
  feats_extract := some "fbank"
  feats_extract_conf := some [("hop_length", 128)]
  normalize := some "global_mvn"
  normalize_conf := []
  svs := "naive_rnn"
  svs_conf := []
  score_feats_extract := some "frame_score_feats"
  score_feats_extract_conf := []
  pitch_extract := some "dio"
  pitch_extract_conf := []
  ying_extract := none
  ying_extract_conf := []
  energy_extract := some "energy"
  energy_extract_conf := []
  pitch_normalize := none
  pitch_normalize_conf := []
  energy_normalize := none
  energy_normalize_conf := []
  model_conf := []
  use_preprocessor := true
  token_type := "phn"
  bpemodel := none
  non_linguistic_symbols := none
  cleaner := none
  g2p := none
  fs := 24000

/-- An empty filesystem for runs that take the materialized-list path. -/
def noneFS : FileSys := fun _ => none

/-- A constant `output_size()` collaborator. -/
def constOSZ : OutputSizeFn := fun _ _ => 80

/-- Fallback model value for total extraction of concrete results. -/
def dummyModel : Model where
  cls := "svs"
  svs := ⟨"naive_rnn", 0, 0, none, []⟩
  discrete_token_layers := none
  text_extract := none
  feats_extract := none
  score_feats_extract := none
  label_extract := none
  duration_extract := none
  pitch_extract := none
  energy_extract := none
  ying_extract := none
  normalize := none
  pitch_normalize := none
  energy_normalize := none
  model_conf := []

/-! ### The claims -/

/-- C1: for every configuration whose model type resolves to
`"discrete_svs"`, a successful `build_model` passes `args.nclusters` as
the output dimensionality of the constructed synthesis component —
whether `odim` was explicit or would have been derived from the feature
extractor's `output_size()`. -/
theorem claim_C1_discrete_odim (fsys : FileSys) (osz : OutputSizeFn)
    (a a' : Args) (m : Model)
    (hdisc : a.model_type.getD "svs" = "discrete_svs")
    (h : build_model fsys osz a = .ok (a', m)) :
    m.svs.odim = a.nclusters := by
  obtain ⟨a1, tl, a2, fe, d0, nz, scls, sc, a3, pe, ye, a4, ee, pn, en, mc,
    h1, h2, h3, h4, h5, h6, h7, h8, h9, h10, h11, ha, hm⟩ :=
    build_model_ok_inv h
  obtain ⟨rfl, -⟩ := resolveTokenList_ok h1
  rcases resolveFeats_ok h2 with ⟨-, rfl⟩ | ⟨-, -, rfl⟩ <;>
    subst hm <;> simp [hdisc]

/-- Concrete discrete-mode configuration for the C1 witness. -/
def c1Args : Args :=
  { baseArgs with model_type := some "discrete_svs", svs := "toksing" }

/-- The result of the concrete C1 run. -/
def c1Res : Args × Model :=
  match build_model noneFS constOSZ c1Args with
  | .ok r => r
  | .error _ => (c1Args, dummyModel)

/-- Witness for C1: the concrete discrete-mode run hits the theorem's
hypotheses and its synthesis component receives `nclusters`. -/
theorem claim_C1_discrete_odim_witness :
    c1Res.2.svs.odim = c1Args.nclusters :=
  claim_C1_discrete_odim noneFS constOSZ c1Args c1Res.1 c1Res.2 rfl rfl

/-- C2: whenever a pitch extractor (or an energy extractor) is selected
and its conf carries a `reduction_factor` different from the synthesis
conf's `reduction_factor` (default 1 when absent), `build_model` never
succeeds: the assertion fires before the model wrapper is constructed. -/
theorem claim_C2_reduction_mismatch (fsys : FileSys) (osz : OutputSizeFn)
    (a : Args) (r1 : Nat)
    (hmis :
      (∃ l, a.pitch_extract = some l ∧
        Conf.get a.pitch_extract_conf "reduction_factor" = some r1 ∧
        r1 ≠ Conf.getD a.svs_conf "reduction_factor" 1) ∨
      (∃ l, a.energy_extract = some l ∧
        Conf.get a.energy_extract_conf "reduction_factor" = some r1 ∧
        r1 ≠ Conf.getD a.svs_conf "reduction_factor" 1)) :
    ∀ r, build_model fsys osz a ≠ .ok r := by
  rintro ⟨a', m⟩ h
  obtain ⟨a1, tl, a2, fe, d0, nz, scls, sc, a3, pe, ye, a4, ee, pn, en, mc,
    h1, h2, h3, h4, h5, h6, h7, h8, h9, h10, h11, ha, hm⟩ :=
    build_model_ok_inv h
  obtain ⟨rfl, -⟩ := resolveTokenList_ok h1
  rcases hmis with ⟨l, hl, hr, hne⟩ | ⟨l, hl, hr, hne⟩
  · rcases resolveFeats_ok h2 with ⟨-, rfl⟩ | ⟨-, -, rfl⟩ <;>
      exact buildPitch_mismatch h6 hl hr hne
  · rcases resolveFeats_ok h2 with ⟨-, rfl⟩ | ⟨-, -, rfl⟩ <;>
      rcases buildPitch_frame h6 with rfl | ⟨v, rfl⟩ <;>
        exact buildEnergy_mismatch h8 hl hr hne

/-- Mismatched configuration for the C2 witness: pitch conf says 2, svs
conf is empty so its reduction factor defaults to 1. -/
def c2Args : Args :=
  { baseArgs with pitch_extract_conf := [("reduction_factor", 2)] }

/-- Witness for C2 at the concrete mismatched configuration. -/
theorem claim_C2_reduction_mismatch_witness :
    build_model noneFS constOSZ c2Args ≠ .ok (c2Args, dummyModel) :=
  claim_C2_reduction_mismatch noneFS constOSZ c2Args 2
    (Or.inl ⟨"dio", rfl, by decide, by decide⟩) (c2Args, dummyModel)

/-- C3: when a pitch (resp. energy) extractor is selected without a
`reduction_factor` in its conf while the svs conf carries one (value `R`),
a successful `build_model` constructs that extractor with
`reduction_factor = R` inherited into its conf. -/
theorem claim_C3_reduction_inherit (fsys : FileSys) (osz : OutputSizeFn)
    (a a' : Args) (m : Model) (R : Nat)
    (hsvs : Conf.get a.svs_conf "reduction_factor" = some R)
    (h : build_model fsys osz a = .ok (a', m)) :
    (∀ l, a.pitch_extract = some l →
      Conf.get a.pitch_extract_conf "reduction_factor" = none →
      m.pitch_extract = some ⟨l, Conf.set a.pitch_extract_conf "reduction_factor" R⟩ ∧
      Conf.get (Conf.set a.pitch_extract_conf "reduction_factor" R) "reduction_factor" = some R) ∧
    (∀ l, a.energy_extract = some l →
      Conf.get a.energy_extract_conf "reduction_factor" = none →
      m.energy_extract = some ⟨l, Conf.set a.energy_extract_conf "reduction_factor" R⟩ ∧
      Conf.get (Conf.set a.energy_extract_conf "reduction_factor" R) "reduction_factor" = some R) := by
  obtain ⟨a1, tl, a2, fe, d0, nz, scls, sc, a3, pe, ye, a4, ee, pn, en, mc,
    h1, h2, h3, h4, h5, h6, h7, h8, h9, h10, h11, ha, hm⟩ :=
    build_model_ok_inv h
  obtain ⟨rfl, -⟩ := resolveTokenList_ok h1
  subst hm
  constructor
  · intro l hl hr
    refine ⟨?_, Conf.get_set_self _ _ _⟩
    rcases resolveFeats_ok h2 with ⟨-, rfl⟩ | ⟨-, -, rfl⟩ <;>
      · have hpe := buildPitch_inherit h6 hl hr
        show pe = _
        rw [hpe]
        have : Conf.getD a.svs_conf "reduction_factor" 1 = R := by
          simp [Conf.getD, hsvs]
        rw [this]
  · intro l hl hr
    refine ⟨?_, Conf.get_set_self _ _ _⟩
    rcases resolveFeats_ok h2 with ⟨-, rfl⟩ | ⟨-, -, rfl⟩ <;>
      rcases buildPitch_frame h6 with rfl | ⟨v, rfl⟩ <;>
        · have hee := buildEnergy_inherit h8 hl hr
          show ee = _
          rw [hee]
          have : Conf.getD a.svs_conf "reduction_factor" 1 = R := by
            simp [Conf.getD, hsvs]
          rw [this]

/-- Configuration for the C3 witness: svs conf carries reduction factor
2, pitch and energy confs carry none. -/
def c3Args : Args := { baseArgs with svs_conf := [("reduction_factor", 2)] }

/-- The result of the concrete C3 run. -/
def c3Res : Args × Model :=
  match build_model noneFS constOSZ c3Args with
  | .ok r => r
  | .error _ => (c3Args, dummyModel)

/-- Witness for C3: both auxiliary extractors of the concrete run carry
the inherited reduction factor 2. -/
theorem claim_C3_reduction_inherit_witness :
    c3Res.2.pitch_extract = some ⟨"dio", Conf.set c3Args.pitch_extract_conf "reduction_factor" 2⟩ ∧
    c3Res.2.energy_extract = some ⟨"energy", Conf.set c3Args.energy_extract_conf "reduction_factor" 2⟩ :=
  ⟨((claim_C3_reduction_inherit noneFS constOSZ c3Args c3Res.1 c3Res.2 2
      rfl rfl).1 "dio" rfl rfl).1,
   ((claim_C3_reduction_inherit noneFS constOSZ c3Args c3Res.1 c3Res.2 2
      rfl rfl).2 "energy" rfl rfl).1⟩

theorem resolveTokenList_invalid {fsys : FileSys} {a : Args}
    (h : a.token_list = .invalid) :
    resolveTokenList fsys a = .error .tokenListType := by
  unfold resolveTokenList
  rw [h]

theorem buildScoreFeats_ok_none {a : Args} {sc : Option Extractor}
    (h : buildScoreFeats a = .ok sc) (hn : a.score_feats_extract = none) :
    sc = none := by
  rw [buildScoreFeats_none hn] at h
  injection h with h'
  exact h'.symm

/-- C5: a `token_list` that is neither a path string nor a materialized
sequence makes `build_model` fail with the `RuntimeError` immediately
(whatever the rest of the configuration, filesystem or collaborators);
for either valid form the resolved vocabulary size — the `idim` passed to
the synthesis component — is the number of tokens. -/
theorem claim_C5_token_list (fsys : FileSys) (osz : OutputSizeFn)
    (a : Args) :
    (a.token_list = .invalid →
      build_model fsys osz a = .error .tokenListType) ∧
    (∀ ts, a.token_list = .toks ts → ∀ a' m,
      build_model fsys osz a = .ok (a', m) → m.svs.idim = ts.length) ∧
    (∀ p lines, a.token_list = .path p → fsys p = some lines → ∀ a' m,
      build_model fsys osz a = .ok (a', m) → m.svs.idim = lines.length) := by
  refine ⟨fun hinv => ?_, fun ts hts a' m h => ?_,
    fun p lines hp hfs a' m h => ?_⟩
  · unfold build_model
    rw [resolveTokenList_invalid hinv]
  · obtain ⟨a1, tl, a2, fe, d0, nz, scls, sc, a3, pe, ye, a4, ee, pn, en,
      mc, h1, _, _, _, _, _, _, _, _, _, _, _, hm⟩ := build_model_ok_inv h
    obtain ⟨-, hcase⟩ := resolveTokenList_ok h1
    rcases hcase with htoks | ⟨p', lines', hp', -, -⟩
    · rw [hts] at htoks
      injection htoks with h'
      subst hm
      simp [h']
    · rw [hts] at hp'
      exact absurd hp' (by simp)
  · obtain ⟨a1, tl, a2, fe, d0, nz, scls, sc, a3, pe, ye, a4, ee, pn, en,
      mc, h1, _, _, _, _, _, _, _, _, _, _, _, hm⟩ := build_model_ok_inv h
    obtain ⟨-, hcase⟩ := resolveTokenList_ok h1
    rcases hcase with htoks | ⟨p', lines', hp', hfs', htl⟩
    · rw [hp] at htoks
      exact absurd htoks (by simp)
    · rw [hp] at hp'
      injection hp' with hpp
      subst hpp
      rw [hfs] at hfs'
      injection hfs' with hll
      subst hll
      subst htl
      subst hm
      simp

/-- Invalid token-list value for the first C5 conjunct. -/
def c5Args : Args := { baseArgs with token_list := .invalid }

/-- Token-list file for the path conjunct of C5. -/
def c5FS : FileSys :=
  fun p => if p = "tokens.txt" then some ["a\n", "b\n"] else none

/-- Path-mode configuration for the C5 witness. -/
def c5PathArgs : Args :=
  { baseArgs with token_list := .path "tokens.txt" }

/-- The result of the concrete baseline run (materialized token list). -/
def baseRes : Args × Model :=
  match build_model noneFS constOSZ baseArgs with
  | .ok r => r
  | .error _ => (baseArgs, dummyModel)

/-- The result of the concrete path-mode C5 run. -/
def c5PathRes : Args × Model :=
  match build_model c5FS constOSZ c5PathArgs with
  | .ok r => r
  | .error _ => (c5PathArgs, dummyModel)

/-- Witness for C5: the invalid form fails with the RuntimeError; the two
valid forms produce vocabulary sizes 3 and 2. -/
theorem claim_C5_token_list_witness :
    build_model noneFS constOSZ c5Args = .error .tokenListType ∧
    baseRes.2.svs.idim = (["a", "b", "c"] : List String).length ∧
    c5PathRes.2.svs.idim = (["a\n", "b\n"] : List String).length :=
  ⟨(claim_C5_token_list noneFS constOSZ c5Args).1 rfl,
   (claim_C5_token_list noneFS constOSZ baseArgs).2.1 ["a", "b", "c"] rfl
     baseRes.1 baseRes.2 rfl,
   (claim_C5_token_list c5FS constOSZ c5PathArgs).2.2 "tokens.txt"
     ["a\n", "b\n"] rfl rfl c5PathRes.1 c5PathRes.2 rfl⟩

/-- C9: in every successfully assembled model, the `text_extract`,
`score_feats_extract`, `label_extract` and `duration_extract` slots all
receive the single score-features extractor (and all are `None` when no
score-features extractor is configured). -/
theorem claim_C9_shared_score_extractor (fsys : FileSys)
    (osz : OutputSizeFn) (a a' : Args) (m : Model)
    (h : build_model fsys osz a = .ok (a', m)) :
    m.text_extract = m.score_feats_extract ∧
    m.label_extract = m.score_feats_extract ∧
    m.duration_extract = m.score_feats_extract ∧
    (a.score_feats_extract = none → m.score_feats_extract = none) := by
  obtain ⟨a1, tl, a2, fe, d0, nz, scls, sc, a3, pe, ye, a4, ee, pn, en,
    mc, h1, h2, _, _, h5, _, _, _, _, _, _, _, hm⟩ := build_model_ok_inv h
  obtain ⟨rfl, -⟩ := resolveTokenList_ok h1
  subst hm
  refine ⟨rfl, rfl, rfl, fun hn => ?_⟩
  rcases resolveFeats_ok h2 with ⟨-, rfl⟩ | ⟨-, -, rfl⟩ <;>
    exact buildScoreFeats_ok_none h5 hn

/-- Configuration without a score-features extractor for the C9 witness. -/
def c9Args : Args := { baseArgs with score_feats_extract := none }

/-- The result of the concrete C9 run. -/
def c9Res : Args × Model :=
  match build_model noneFS constOSZ c9Args with
  | .ok r => r
  | .error _ => (c9Args, dummyModel)

/-- Witness for C9 at a configuration with no score-features extractor. -/
theorem claim_C9_shared_score_extractor_witness :
    c9Res.2.text_extract = c9Res.2.score_feats_extract ∧
    c9Res.2.label_extract = c9Res.2.score_feats_extract ∧
    c9Res.2.duration_extract = c9Res.2.score_feats_extract ∧
    c9Res.2.score_feats_extract = none :=
  (fun H => ⟨H.1, H.2.1, H.2.2.1, H.2.2.2 rfl⟩)
    (claim_C9_shared_score_extractor noneFS constOSZ c9Args c9Res.1
      c9Res.2 rfl)

/-- C6 (amended): a successful `build_model` call mutates the namespace
only at `token_list` (normalized to the materialized sequence),
`feats_extract`/`feats_extract_conf` (reset to `None` on the
explicit-`odim` path) and `pitch_extract_conf`/`energy_extract_conf`
(reduction-factor inheritance); every other field is unchanged. -/
theorem claim_C6_args_mutation (fsys : FileSys) (osz : OutputSizeFn)
    (a a' : Args) (m : Model)
    (h : build_model fsys osz a = .ok (a', m)) :
    (∃ ts, a'.token_list = TokenListArg.toks ts) ∧
    a' = { a with token_list := a'.token_list, feats_extract := a'.feats_extract, feats_extract_conf := a'.feats_extract_conf, pitch_extract_conf := a'.pitch_extract_conf, energy_extract_conf := a'.energy_extract_conf } := by
  refine ⟨?_, build_model_args_frame h⟩
  obtain ⟨a1, tl, a2, fe, d0, nz, scls, sc, a3, pe, ye, a4, ee, pn, en,
    mc, h1, h2, _, _, _, h6, _, h8, _, _, _, ha, -⟩ := build_model_ok_inv h
  obtain ⟨rfl, -⟩ := resolveTokenList_ok h1
  refine ⟨tl, ?_⟩
  rcases resolveFeats_ok h2 with ⟨-, rfl⟩ | ⟨-, -, rfl⟩ <;>
    rcases buildPitch_frame h6 with rfl | ⟨v, rfl⟩ <;>
      rcases buildEnergy_frame h8 with rfl | ⟨w, rfl⟩ <;>
        subst ha <;> rfl

/-- Explicit-`odim` configuration for C6. -/
def c6Args : Args := { baseArgs with odim := some 5 }

/-- The result of the concrete C6 run. -/
def c6Res : Args × Model :=
  match build_model noneFS constOSZ c6Args with
  | .ok r => r
  | .error _ => (c6Args, dummyModel)

/-- C6 counterexample: with an explicit `odim` the call succeeds and
resets `feats_extract_conf` on the namespace — a configuration field
other than the vocabulary list is mutated. -/
theorem claim_C6_counterexample :
    build_model noneFS constOSZ c6Args = .ok c6Res ∧
    c6Res.1.feats_extract_conf ≠ c6Args.feats_extract_conf :=
  ⟨rfl, by decide⟩

/-- Witness for the amended C6 at the explicit-`odim` configuration. -/
theorem claim_C6_args_mutation_witness :
    (∃ ts, c6Res.1.token_list = TokenListArg.toks ts) ∧
    c6Res.1 = { c6Args with token_list := c6Res.1.token_list, feats_extract := c6Res.1.feats_extract, feats_extract_conf := c6Res.1.feats_extract_conf, pitch_extract_conf := c6Res.1.pitch_extract_conf, energy_extract_conf := c6Res.1.energy_extract_conf } :=
  claim_C6_args_mutation noneFS constOSZ c6Args c6Res.1 c6Res.2 rfl

theorem build_vocoder_none_ok {yfs : YamlFS} {vcf : Option String}
    {fep : Option Conf} {dev : String} {conf : Conf}
    (hload : mergedVocoderConf yfs vcf fep = .ok conf) :
    build_vocoder_from_file yfs vcf none fep dev =
      if (Conf.get conf "n_fft").isSome ∧ (Conf.get conf "n_shift").isSome ∧ (Conf.get conf "fs").isSome
      then .ok (some (.spectrogram2Waveform conf)) else .ok none := by
  unfold build_vocoder_from_file
  rw [hload]

theorem build_vocoder_some {yfs : YamlFS} {vcf : Option String}
    {fep : Option Conf} {dev : String} (vf : String) :
    build_vocoder_from_file yfs vcf (some vf) fep dev =
      if pyEndsWith vf ".pkl"
      then .ok (some (.parallelWaveGAN vf vcf dev))
      else .error (.unsupportedFormat vf) := by
  unfold build_vocoder_from_file
  rfl

/-- C4: the three-way case split of `build_vocoder_from_file`: with no
checkpoint and a merged parameter mapping containing `n_fft`, `n_shift`
and `fs`, the griffin-lim `Spectrogram2Waveform` is returned; with no
checkpoint and any of the three missing, `None` is returned (after the
logged warning); with a checkpoint whose name does not end in `.pkl`,
the `ValueError` is raised. -/
theorem claim_C4_vocoder_cases (yfs : YamlFS) (vcf : Option String)
    (fep : Option Conf) (dev : String) (conf : Conf)
    (hload : mergedVocoderConf yfs vcf fep = .ok conf) :
    (((Conf.get conf "n_fft").isSome ∧ (Conf.get conf "n_shift").isSome ∧ (Conf.get conf "fs").isSome) →
      build_vocoder_from_file yfs vcf none fep dev = .ok (some (.spectrogram2Waveform conf))) ∧
    (¬ ((Conf.get conf "n_fft").isSome ∧ (Conf.get conf "n_shift").isSome ∧ (Conf.get conf "fs").isSome) →
      build_vocoder_from_file yfs vcf none fep dev = .ok none) ∧
    (∀ vf, ¬ pyEndsWith vf ".pkl" →
      build_vocoder_from_file yfs vcf (some vf) fep dev = .error (.unsupportedFormat vf)) := by
  refine ⟨fun hc => ?_, fun hc => ?_, fun vf hvf => ?_⟩
  · rw [build_vocoder_none_ok hload, if_pos hc]
  · rw [build_vocoder_none_ok hload, if_neg hc]
  · rw [build_vocoder_some vf, if_neg hvf]

/-- Feature-extractor parameters making the merged mapping complete. -/
def c4Params : Conf := [("n_fft", 1024), ("n_shift", 256), ("fs", 24000)]

/-- The empty YAML filesystem for the C4 witness. -/
def noneYFS : YamlFS := fun _ => none

/-- Witness for C4: all three branches at concrete inputs. -/
theorem claim_C4_vocoder_cases_witness :
    build_vocoder_from_file noneYFS none none (some c4Params) "cpu" = .ok (some (.spectrogram2Waveform c4Params)) ∧
    build_vocoder_from_file noneYFS none none none "cpu" = .ok none ∧
    build_vocoder_from_file noneYFS none (some "vocoder.ckpt") none "cpu" = .error (.unsupportedFormat "vocoder.ckpt") :=
  ⟨(claim_C4_vocoder_cases noneYFS none (some c4Params) "cpu" c4Params
      (by rfl)).1 (by decide),
   (claim_C4_vocoder_cases noneYFS none none "cpu" [] rfl).2.1 (by decide),
   (claim_C4_vocoder_cases noneYFS none none "cpu" [] rfl).2.2
     "vocoder.ckpt" (by decide)⟩

/-- C10: with `use_preprocessor` set, `build_preprocess_fn`
unconditionally indexes `args.feats_extract_conf["hop_length"]`, so it
raises when the conf is `None` or lacks the key — in particular on a
namespace previously mutated by a `build_model` call with explicit
`odim`, which resets `feats_extract_conf` to `None`; with
`use_preprocessor` unset it returns `None`. -/
theorem claim_C10_preprocess_hop_length (a : Args) (train : Bool) :
    (a.use_preprocessor = true → a.feats_extract_conf = none →
      build_preprocess_fn a train = .error (.badConf "feats_extract_conf")) ∧
    (a.use_preprocessor = true → ∀ c, a.feats_extract_conf = some c →
      Conf.get c "hop_length" = none →
      build_preprocess_fn a train = .error (.badConf "hop_length")) ∧
    (a.use_preprocessor = false → build_preprocess_fn a train = .ok none) ∧
    (∀ fsys osz d a' m, a.odim = some d → a.use_preprocessor = true →
      build_model fsys osz a = .ok (a', m) →
      build_preprocess_fn a' train = .error (.badConf "feats_extract_conf")) := by
  refine ⟨fun hup hconf => ?_, fun hup c hconf hkey => ?_, fun hup => ?_,
    fun fsys osz d a' m hod hup h => ?_⟩
  · simp [build_preprocess_fn, hup, hconf]
  · simp [build_preprocess_fn, hup, hconf, hkey]
  · simp [build_preprocess_fn, hup]
  · obtain ⟨a1, tl, a2, fe, d0, nz, scls, sc, a3, pe, ye, a4, ee, pn, en,
      mc, h1, h2, _, _, _, h6, _, h8, _, _, _, ha, -⟩ := build_model_ok_inv h
    obtain ⟨rfl, -⟩ := resolveTokenList_ok h1
    rcases resolveFeats_ok h2 with ⟨hnone, -⟩ | ⟨-, -, rfl⟩
    · have hnone' : a.odim = none := hnone
      rw [hod] at hnone'
      exact absurd hnone' (by simp)
    · rcases buildPitch_frame h6 with rfl | ⟨v, rfl⟩ <;>
        rcases buildEnergy_frame h8 with rfl | ⟨w, rfl⟩ <;>
          subst ha <;>
            simp [build_preprocess_fn, hup]

/-- Witness for C10: all four branches at concrete configurations (the
fourth reuses the explicit-`odim` run of C6). -/
theorem claim_C10_preprocess_hop_length_witness :
    build_preprocess_fn { baseArgs with feats_extract_conf := none } true = .error (.badConf "feats_extract_conf") ∧
    build_preprocess_fn { baseArgs with feats_extract_conf := some [] } true = .error (.badConf "hop_length") ∧
    build_preprocess_fn { baseArgs with use_preprocessor := false } true = .ok none ∧
    build_preprocess_fn c6Res.1 true = .error (.badConf "feats_extract_conf") :=
  ⟨(claim_C10_preprocess_hop_length
      { baseArgs with feats_extract_conf := none } true).1 rfl rfl,
   (claim_C10_preprocess_hop_length
      { baseArgs with feats_extract_conf := some [] } true).2.1 rfl [] rfl rfl,
   (claim_C10_preprocess_hop_length
      { baseArgs with use_preprocessor := false } true).2.2.1 rfl,
   (claim_C10_preprocess_hop_length c6Args true).2.2.2 noneFS constOSZ 5
     c6Res.1 c6Res.2 rfl rfl rfl⟩

theorem mem_le_foldr_max (l : List Nat) (n : Nat) (hn : n ∈ l) :
    n ≤ l.foldr max 0 := by
  induction l with
  | nil => cases hn
  | cons x xs ih =>
    rcases List.mem_cons.mp hn with rfl | hmem
    · exact le_max_left _ _
    · exact le_trans (ih hmem) (le_max_right _ _)

/-- C7: for every configuration and either value of the train flag,
`build_collate_fn` returns the fixed `CommonCollateFn` with float fill
`0.0`, integer fill `0` and the non-padded fields exactly `spembs`,
`sids`, `lids`; the two dtype fills are distinct values; a designated
field passes through unpadded, and every other field is padded — each
example's array is extended, with fill cells of its own dtype kind, to
the maximum length in the batch. -/
theorem claim_C7_collate_padding (a : Args) (train : Bool) :
    build_collate_fn a train = { float_pad_value := .float 0, int_pad_value := .int 0, not_sequence := ["spembs", "sids", "lids"] } ∧
    (build_collate_fn a train).float_pad_value ≠ (build_collate_fn a train).int_pad_value ∧
    (∀ name batch, name ∈ (build_collate_fn a train).not_sequence →
      CommonCollateFn.collateField (build_collate_fn a train) name batch = batch.map (fun d => d.2)) ∧
    (∀ name batch, name ∉ (build_collate_fn a train).not_sequence →
      ∀ d ∈ batch, ∃ pad,
        (d.2 ++ pad) ∈ CommonCollateFn.collateField (build_collate_fn a train) name batch ∧
        (d.2 ++ pad).length = (batch.map (fun d => d.2.length)).foldr max 0 ∧
        ∀ c ∈ pad, c = (if d.1 then (build_collate_fn a train).float_pad_value else (build_collate_fn a train).int_pad_value)) := by
  refine ⟨rfl, fun hcon => Scalar.noConfusion hcon,
    fun name batch hmem => ?_, fun name batch hmem d hd => ?_⟩
  · unfold CommonCollateFn.collateField
    rw [if_pos hmem]
  · refine ⟨List.replicate (((batch.map (fun d => d.2.length)).foldr max 0) - d.2.length) (if d.1 then (build_collate_fn a train).float_pad_value else (build_collate_fn a train).int_pad_value), ?_, ?_, ?_⟩
    · unfold CommonCollateFn.collateField
      rw [if_neg hmem]
      exact List.mem_map_of_mem _ hd
    · rw [List.length_append, List.length_replicate]
      have hle : d.2.length ≤ (batch.map (fun d => d.2.length)).foldr max 0 :=
        mem_le_foldr_max _ _ (List.mem_map_of_mem _ hd)
      omega
    · intro c hc
      exact List.eq_of_mem_replicate hc

/-- Witness for C7: a designated field passes through; an ordinary field
is padded to the batch maximum with the integer fill. -/
theorem claim_C7_collate_padding_witness :
    CommonCollateFn.collateField (build_collate_fn baseArgs true) "spembs" [(true, [Scalar.float 7])] = [[Scalar.float 7]] ∧
    (∃ pad,
      ([Scalar.int 3] ++ pad) ∈ CommonCollateFn.collateField (build_collate_fn baseArgs true) "singing" [(false, [Scalar.int 3]), (true, [Scalar.float 1, Scalar.float 2])] ∧
      ([Scalar.int 3] ++ pad).length = ([((false : Bool), [Scalar.int 3]), ((true : Bool), [Scalar.float 1, Scalar.float 2])].map (fun d => d.2.length)).foldr max 0 ∧
      ∀ c ∈ pad, c = (if (false : Bool) then (build_collate_fn baseArgs true).float_pad_value else (build_collate_fn baseArgs true).int_pad_value)) :=
  ⟨(claim_C7_collate_padding baseArgs true).2.2.1 "spembs"
      [(true, [Scalar.float 7])] (by decide),
   (claim_C7_collate_padding baseArgs true).2.2.2 "singing"
      [(false, [Scalar.int 3]), (true, [Scalar.float 1, Scalar.float 2])]
      (by decide) (false, [Scalar.int 3]) (by decide)⟩

theorem dropWhile_head_false {α : Type} (p : α → Bool) (l : List α)
    {c : α} {rest : List α} (h : l.dropWhile p = c :: rest) :
    p c = false := by
  induction l with
  | nil => simp [List.dropWhile] at h
  | cons x xs ih =>
    rw [List.dropWhile_cons] at h
    by_cases hx : p x
    · rw [if_pos hx] at h
      exact ih h
    · rw [if_neg hx] at h
      injection h with h1 _
      subst h1
      simpa using hx

theorem pyRstrip_spec (s : String) :
    ∃ w, s.data = (pyRstrip s).data ++ w ∧
      (∀ c ∈ w, isPyWhitespace c = true) ∧
      ∀ l c, (pyRstrip s).data = l ++ [c] → isPyWhitespace c = false := by
  refine ⟨(s.data.reverse.takeWhile isPyWhitespace).reverse, ?_, ?_, ?_⟩
  · show s.data = (s.data.reverse.dropWhile isPyWhitespace).reverse ++ (s.data.reverse.takeWhile isPyWhitespace).reverse
    rw [← List.reverse_append, List.takeWhile_append_dropWhile,
      List.reverse_reverse]
  · intro c hc
    rw [List.mem_reverse] at hc
    exact List.mem_takeWhile_imp hc
  · intro l c hc
    have h2 : s.data.reverse.dropWhile isPyWhitespace = c :: l.reverse := by
      have h3 : (s.data.reverse.dropWhile isPyWhitespace).reverse = l ++ [c] := hc
      have h4 := congrArg List.reverse h3
      rw [List.reverse_reverse] at h4
      rw [h4]
      simp
    exact dropWhile_head_false _ _ h2

/-- C8 (amended): reading `token_list` from a path produces one token per
line in file order, each line stripped of ALL its trailing whitespace —
Python's `rstrip()` — not only of the trailing newline: the token is a
prefix of its line, the dropped suffix is all whitespace, and the token
itself never ends in a whitespace character. -/
theorem claim_C8_token_file_rstrip (fsys : FileSys) (osz : OutputSizeFn)
    (a a' : Args) (m : Model) (p : String) (lines : List String)
    (hp : a.token_list = .path p) (hfs : fsys p = some lines)
    (h : build_model fsys osz a = .ok (a', m)) :
    a'.token_list = .toks (lines.map pyRstrip) ∧
    ∀ s ∈ lines, ∃ w, s.data = (pyRstrip s).data ++ w ∧
      (∀ c ∈ w, isPyWhitespace c = true) ∧
      ∀ l c, (pyRstrip s).data = l ++ [c] → isPyWhitespace c = false := by
  refine ⟨?_, fun s _ => pyRstrip_spec s⟩
  obtain ⟨a1, tl, a2, fe, d0, nz, scls, sc, a3, pe, ye, a4, ee, pn, en,
    mc, h1, h2, _, _, _, h6, _, h8, _, _, _, ha, -⟩ := build_model_ok_inv h
  obtain ⟨rfl, hcase⟩ := resolveTokenList_ok h1
  rcases hcase with htoks | ⟨p', lines', hp', hfs', htl⟩
  · rw [hp] at htoks
    exact absurd htoks (by simp)
  · rw [hp] at hp'
    injection hp' with hpp
    subst hpp
    rw [hfs] at hfs'
    injection hfs' with hll
    subst hll
    subst htl
    rcases resolveFeats_ok h2 with ⟨-, rfl⟩ | ⟨-, -, rfl⟩ <;>
      rcases buildPitch_frame h6 with rfl | ⟨v, rfl⟩ <;>
        rcases buildEnergy_frame h8 with rfl | ⟨w, rfl⟩ <;>
          subst ha <;> rfl

/-- Token-list file with a space before the newline on its first line. -/
def c8FS : FileSys :=
  fun p => if p = "tokens.txt" then some ["a \n", "b\n"] else none

/-- Path-mode configuration for C8. -/
def c8Args : Args := { baseArgs with token_list := .path "tokens.txt" }

/-- The result of the concrete C8 run. -/
def c8Res : Args × Model :=
  match build_model c8FS constOSZ c8Args with
  | .ok r => r
  | .error _ => (c8Args, dummyModel)

/-- C8 counterexample: on the line "a \n" the code also strips the space
before the newline, so the materialized vocabulary differs from the
claimed exactly-newline-stripped lines. -/
theorem claim_C8_counterexample :
    build_model c8FS constOSZ c8Args = .ok c8Res ∧
    c8Res.1.token_list = .toks (["a \n", "b\n"].map pyRstrip) ∧
    c8Res.1.token_list ≠ .toks (["a \n", "b\n"].map stripTrailingNewlineOnly) :=
  ⟨rfl, by decide, by decide⟩

/-- Witness for the amended C8 at the concrete run. -/
theorem claim_C8_token_file_rstrip_witness :
    c8Res.1.token_list = .toks (["a \n", "b\n"].map pyRstrip) ∧
    ∀ s ∈ ["a \n", "b\n"], ∃ w, s.data = (pyRstrip s).data ++ w ∧
      (∀ c ∈ w, isPyWhitespace c = true) ∧
      ∀ l c, (pyRstrip s).data = l ++ [c] → isPyWhitespace c = false :=
  claim_C8_token_file_rstrip c8FS constOSZ c8Args c8Res.1 c8Res.2
    "tokens.txt" ["a \n", "b\n"] rfl rfl rfl
